import Mathlib

/-!
# passenger-go-exporter: startup acquisition and `/health` recovery

A shallow embedding of `main` in `src/main.go`:

* the startup acquisition loop (lines 37-49): one initial `FindInstance` call
  followed by at most `maxRetries` rounds of "log, sleep 200 ms, call again";
* the startup registration (lines 51-59);
* the `/health` handler (lines 65-87).

The collaborators that `main` calls but does not define (`factory.FindInstance`,
`server.IsEnabled`, `metric.NewCollector`, `prometheus.Register`) appear as inputs:
each call's result is supplied by the environment of the run.
-/

namespace PassengerExporter

/-! ## Data model -/

/-- Handle of a discovered backend process (the non-nil value returned by
`factory.FindInstance()`); `id` stands for the identity of the handle. -/
structure Instance where
  id : Nat
deriving DecidableEq, Repr

/-- The program variable `server`: a handle or `nil`. -/
abbrev Server := Option Instance

/-! ## Startup acquisition (lines 37-49) -/

/-- Go `int` arithmetic on a 64-bit platform: the mathematical result wrapped
into the range `[-2^63, 2^63)`. -/
def wrapInt (x : Int) : Int :=
  (x + 2 ^ 63) % 2 ^ 64 - 2 ^ 63

/-- The sleep between two attempts, in milliseconds (`time.Millisecond * 200`). -/
def pollInterval : Nat := 200

/-- Line 40: `maxRetries := (*timeout * 1000) / 200`, Go integer arithmetic
(wrapping product, quotient truncated towards zero). -/
def maxRetries (timeout : Int) : Int :=
  Int.tdiv (wrapInt (timeout * 1000)) 200

/-- What the acquisition has done so far: the current value of `server`, the
number of `FindInstance` calls made, and the durations (ms) of the
`time.Sleep` calls made, in order. -/
structure Acquisition where
  server : Server
  calls : Nat
  sleeps : List Nat
deriving DecidableEq, Repr

/-- Lines 42-49, with `n` iterations of the `for` loop left. `find k` is the
result of the `k`-th `FindInstance` call of the run (counting from zero).
An iteration breaks out when `server` is set; otherwise it sleeps 200 ms and
calls the Locator again. -/
def retryLoop (find : Nat → Server) : Nat → Acquisition → Acquisition
  | 0, a => a
  | n + 1, a =>
    match a.server with
    | some _ => a
    | none =>
      retryLoop find n
        { server := find a.calls, calls := a.calls + 1, sleeps := a.sleeps ++ [pollInterval] }

/-- Lines 37-49: the initial `FindInstance` call (line 37), then the loop of
at most `maxRetries` iterations (none when `maxRetries` is not positive). -/
def acquire (timeout : Int) (find : Nat → Server) : Acquisition :=
  retryLoop find (maxRetries timeout).toNat { server := find 0, calls := 1, sleeps := [] }

/-- A Locator that never finds the backend. -/
def neverFound : Nat → Server := fun _ => none

/-- A Locator whose results are the entries of `rs` in order, and absent once
the list is used up. -/
def findFrom (rs : List Server) : Nat → Server := fun k => (rs.get? k).join

/-! ## Collector and scrape registry -/

/-- Modelled from the spec: `metric.NewCollector` is not under src; the spec
describes a MetricsCollector as an object "constructed from a live handle".
A collector records the handle it was built from. -/
structure Collector where
  source : Instance
deriving DecidableEq, Repr

/-- Lines 57 and 76: `metric.NewCollector(server, logger)`. -/
def NewCollector (server : Instance) : Collector :=
  { source := server }

/-- The non-nil errors of `prometheus.Register` that the handler tells apart
(lines 78-84): an `AlreadyRegisteredError` with its `ExistingCollector`, or
any other error. -/
inductive RegisterError where
  | alreadyRegistered (existingCollector : Collector)
  | other
deriving DecidableEq, Repr

/-- The collectors of this exporter that the scrape registry holds, in the
order they were registered. -/
abbrev Registry := List Collector

/-- The effect of `prometheus.Register(c)` on the registry for a given result
`err` of the call (`none` is a nil error): the collector is added exactly when
the call returns no error. -/
def Register (registry : Registry) (c : Collector) (err : Option RegisterError) : Registry :=
  match err with
  | none => registry ++ [c]
  | some _ => registry

/-- The variables the `/health` closure shares with `main` (`server`,
`collector`) together with the contents of the scrape registry. -/
structure Exporter where
  server : Server
  collector : Option Collector
  registry : Registry
deriving DecidableEq, Repr

/-! ## Startup registration (lines 51-59) -/

/-- Lines 37-59. `find` gives the results of the `FindInstance` calls and `err`
the result of the `prometheus.Register` call inside `MustRegister`. When no
handle was found nothing is built or registered; otherwise a collector is built
from the handle and registered. `MustRegister` panics on an error, which ends
the process: the result is `none`. -/
def startup (timeout : Int) (find : Nat → Server) (err : Option RegisterError) :
    Option Exporter :=
  match (acquire timeout find).server with
  | none => some { server := none, collector := none, registry := [] }
  | some server =>
    let collector := NewCollector server
    match err with
    | none =>
      some { server := some server, collector := some collector,
             registry := Register [] collector none }
    | some _ => none

/-! ## The `/health` handler (lines 65-87) -/

/-- What the collaborators answer during one `/health` call, each field being
the result of the one call the handler can make to it:
`heldEnabled` is `server.IsEnabled()` on the held handle (line 66),
`found` is `factory.FindInstance()` (line 67),
`foundEnabled` is `newServer.IsEnabled()` (line 68),
`err` is the result of `prometheus.Register(collector)` (line 77). -/
structure HealthEnv where
  heldEnabled : Bool
  found : Server
  foundEnabled : Bool
  err : Option RegisterError
deriving DecidableEq, Repr

/-- The calls a `/health` request makes to the Locator, the collector
constructor, the registry and the logger, in order. -/
inductive Effect where
  | findInstance
  | newCollector (server : Instance)
  | register (c : Collector)
  | logInfo (msg : String)
  | logError (msg : String)
deriving DecidableEq, Repr

/-- The result of one `/health` call: the shared state afterwards, the status
code written, and the calls made. -/
structure HealthResult where
  state : Exporter
  status : Nat
  effects : List Effect
deriving DecidableEq, Repr

/-- `http.StatusOK`. -/
def StatusOK : Nat := 200

/-- `http.StatusServiceUnavailable`. -/
def StatusServiceUnavailable : Nat := 503

/-- Line 66: `server == nil || !server.IsEnabled()`; the second operand is
evaluated only for a held handle. -/
def needsRecovery (st : Exporter) (env : HealthEnv) : Bool :=
  match st.server with
  | none => true
  | some _ => !env.heldEnabled

/-- Lines 65-87, the `/health` handler. -/
def health (st : Exporter) (env : HealthEnv) : HealthResult :=
  if needsRecovery st env then
    match env.found with
    | none => { state := st, status := StatusServiceUnavailable, effects := [.findInstance] }
    | some newServer =>
      if !env.foundEnabled then
        { state := st, status := StatusServiceUnavailable, effects := [.findInstance] }
      else
        let collector := NewCollector newServer
        let pre : List Effect :=
          [.findInstance, .logInfo "Recovered passenger instance in /health.",
           .newCollector newServer, .register collector]
        match env.err with
        | none =>
          { state := { server := some newServer, collector := some collector,
                       registry := Register st.registry collector none },
            status := StatusOK, effects := pre }
        | some (.alreadyRegistered existingCollector) =>
          { state := { server := some newServer, collector := some existingCollector,
                       registry := Register st.registry collector
                         (some (.alreadyRegistered existingCollector)) },
            status := StatusOK, effects := pre }
        | some .other =>
          { state := { server := some newServer, collector := some collector,
                       registry := Register st.registry collector (some .other) },
            status := StatusOK,
            effects := pre ++ [.logError "Failed to register collector after recovery."] }
  else
    { state := st, status := StatusOK, effects := [] }

/-- The shared state after a sequence of `/health` calls handled one after
another, the `k`-th with the environment `envs[k]`. -/
def run (st : Exporter) : List HealthEnv → Exporter
  | [] => st
  | env :: envs => run (health st env).state envs

/-- The state of the exporter after startup followed by the `/health` calls
`envs`; `none` when startup panicked. -/
def exporterRun (timeout : Int) (find : Nat → Server) (err : Option RegisterError)
    (envs : List HealthEnv) : Option Exporter :=
  (startup timeout find err).map fun st => run st envs

/-- The held collector, when there is one, was built from the held instance. -/
def Paired (st : Exporter) : Prop :=
  ∀ c, st.collector = some c → ∃ s, st.server = some s ∧ c = NewCollector s

/-- The held collector, when there is one, comes with a held instance and is
either the collector built from that instance or one satisfying `P`. -/
def PairedOr (P : Collector → Prop) (st : Exporter) : Prop :=
  ∀ c, st.collector = some c → ∃ s, st.server = some s ∧ (c = NewCollector s ∨ P c)

/-- In the run of `/health` calls `envs` from `st`, no registration succeeds
cleanly while the registry already holds a collector of this exporter. -/
def NoSecondRegistration (st : Exporter) : List HealthEnv → Prop
  | [] => True
  | env :: envs =>
    (st.registry ≠ [] → env.err ≠ none) ∧ NoSecondRegistration (health st env).state envs

/-! ## Concurrent `/health` requests

`net/http` runs each request in a goroutine of its own, and the closure at lines
65-87 takes no lock. A request is therefore a sequence of steps, one per access
to the shared variables or to a collaborator, and steps of different requests
can alternate in any order. -/

/-- Where a request stands in the closure (lines 65-87); a step carries what
the request holds in its local variables. -/
inductive Pc where
  /-- About to evaluate the condition of line 66. -/
  | check
  /-- About to call the Locator and test the result (lines 67-68). -/
  | locate
  /-- About to run `server = newServer` (line 72). -/
  | setServer (newServer : Instance)
  /-- About to run `collector = metric.NewCollector(server, logger)` (line 76). -/
  | build
  /-- About to run `err := prometheus.Register(collector)` (line 77). -/
  | register
  /-- About to run `collector = are.ExistingCollector` (line 80). -/
  | adopt (existingCollector : Collector)
  /-- The status code has been written (line 69 or line 86). -/
  | done (status : Nat)
  /-- The request read `nil` from `server` at line 76 or from `collector` at
  line 77. -/
  | stuck
deriving DecidableEq, Repr

/-- One step of one request on the shared state. The reads of lines 66, 76 and
77 are reads of the shared variables at the time of the step: line 76 builds
the collector from whatever `server` holds then, and line 77 registers
whatever `collector` holds then. -/
def stepRequest (env : HealthEnv) (st : Exporter) : Pc → Exporter × Pc
  | .check =>
    if needsRecovery st env then (st, .locate) else (st, .done StatusOK)
  | .locate =>
    match env.found with
    | none => (st, .done StatusServiceUnavailable)
    | some newServer =>
      if !env.foundEnabled then (st, .done StatusServiceUnavailable)
      else (st, .setServer newServer)
  | .setServer newServer => ({ st with server := some newServer }, .build)
  | .build =>
    match st.server with
    | none => (st, .stuck)
    | some server => ({ st with collector := some (NewCollector server) }, .register)
  | .register =>
    match st.collector with
    | none => (st, .stuck)
    | some collector =>
      match env.err with
      | none => ({ st with registry := Register st.registry collector none }, .done StatusOK)
      | some (.alreadyRegistered existingCollector) =>
        ({ st with registry := Register st.registry collector
                     (some (.alreadyRegistered existingCollector)) },
         .adopt existingCollector)
      | some .other =>
        ({ st with registry := Register st.registry collector (some .other) }, .done StatusOK)
  | .adopt existingCollector =>
    ({ st with collector := some existingCollector }, .done StatusOK)
  | .done status => (st, .done status)
  | .stuck => (st, .stuck)

/-- The shared state and, for each request (numbered from zero), where it
stands. -/
structure Config where
  shared : Exporter
  pc : Nat → Pc

/-- Every request is about to start. -/
def Config.start (st : Exporter) : Config :=
  { shared := st, pc := fun _ => .check }

/-- Request `i` takes its next step; `envs i` is what the collaborators answer
to request `i`. -/
def stepConfig (envs : Nat → HealthEnv) (cfg : Config) (i : Nat) : Config :=
  { shared := (stepRequest (envs i) cfg.shared (cfg.pc i)).1,
    pc := fun j => if j = i then (stepRequest (envs i) cfg.shared (cfg.pc i)).2 else cfg.pc j }

/-- The steps are taken in the order of the schedule, a list of request
numbers. -/
def exec (envs : Nat → HealthEnv) : Config → List Nat → Config
  | cfg, [] => cfg
  | cfg, i :: schedule => exec envs (stepConfig envs cfg i) schedule

/-- The most steps a request takes: lines 66, 67, 72, 76, 77 and 80. -/
def requestSteps : Nat := 6

/-- The schedule that runs requests `0, ..., n - 1` one after another, each to
completion before the next starts. -/
def serialSchedule : Nat → List Nat
  | 0 => []
  | n + 1 => serialSchedule n ++ List.replicate requestSteps n

/-- The environments of requests `0, ..., n - 1`, in order. -/
def firstEnvs (envs : Nat → HealthEnv) : Nat → List HealthEnv
  | 0 => []
  | n + 1 => firstEnvs envs n ++ [envs n]

/-- The request is between its check of line 66 and its status code, that is
inside the recovery of lines 67-84. -/
def Pc.inRecovery : Pc → Bool
  | .locate => true
  | .setServer _ => true
  | .build => true
  | .register => true
  | .adopt _ => true
  | _ => false

/-- The number of steps a request still has to take, at most. -/
def Pc.rank : Pc → Nat
  | .check => 6
  | .locate => 5
  | .setServer _ => 4
  | .build => 3
  | .register => 2
  | .adopt _ => 1
  | .done _ => 0
  | .stuck => 0

/-- What holds of every configuration reached from a start: no request is
stuck, `server` is set while a request is about to build a collector from it,
`collector` is set while a request is about to register it, and each of the
requests `0, ..., n - 1` that has answered has answered 200. -/
def Sound (n : Nat) (cfg : Config) : Prop :=
  (∀ i, cfg.pc i ≠ .stuck) ∧
  ((∃ i, cfg.pc i = .build) → cfg.shared.server ≠ none) ∧
  ((∃ i, cfg.pc i = .register) → cfg.shared.collector ≠ none) ∧
  (∀ i, i < n → ∀ status, cfg.pc i = .done status → status = 200)

/-- The steps of one request taken `k` times in a row from `pc`, with no step
of another request in between. -/
def stepsRequest (env : HealthEnv) : Nat → Exporter → Pc → Exporter × Pc
  | 0, st, pc => (st, pc)
  | k + 1, st, pc => stepsRequest env k (stepRequest env st pc).1 (stepRequest env st pc).2

/-- Two requests for the race. The instance reports enabled whenever it is
asked. Request 0 finds instance 0 and its registration succeeds; every other
request finds instance 1 and its registration meets a conflict with the
collector built from instance 0. -/
def raceEnvs : Nat → HealthEnv
  | 0 => ⟨true, some ⟨0⟩, true, none⟩
  | _ => ⟨true, some ⟨1⟩, true, some (.alreadyRegistered (NewCollector ⟨0⟩))⟩

/-- The race: both requests pass line 66 and line 67 before either writes;
request 0 then runs lines 72, 76 and 77, and request 1 runs lines 72, 76, 77
and 80 after it. -/
def raceSchedule : List Nat := [0, 1, 0, 1, 0, 0, 0, 1, 1, 1, 1]

/-- The number of attempts as the specification words it: the ceiling of
`maxWait / pollInterval`, and at least one. -/
def specAttempts (maxWait interval : Nat) : Nat :=
  max 1 ((maxWait + interval - 1) / interval)

/-- What holds of the acquisition after every Locator call: at least one call
was made, `server` is the result of the last call, every earlier call returned
absent, and there was one 200 ms sleep before each call but the first. -/
def AcquireInv (find : Nat → Server) (a : Acquisition) : Prop :=
  1 ≤ a.calls ∧ a.server = find (a.calls - 1) ∧
    (∀ j, j + 1 < a.calls → find j = none) ∧
    a.sleeps = List.replicate (a.calls - 1) pollInterval

/-! ## The acquisition loop: lemmas -/

theorem acquireInv_init (find : Nat → Server) :
    AcquireInv find { server := find 0, calls := 1, sleeps := [] } := by
  refine ⟨le_refl 1, rfl, ?_, rfl⟩
  intro j hj
  exact absurd hj (by simp)

theorem acquireInv_next (find : Nat → Server) (a : Acquisition)
    (hinv : AcquireInv find a) (hnone : a.server = none) :
    AcquireInv find
      { server := find a.calls, calls := a.calls + 1, sleeps := a.sleeps ++ [pollInterval] } := by
  obtain ⟨hpos, hlast, hearlier, hsleeps⟩ := hinv
  refine ⟨Nat.le_add_left 1 a.calls, rfl, ?_, ?_⟩
  · intro j hj
    rcases Nat.lt_or_ge (j + 1) a.calls with hlt | hge
    · exact hearlier j hlt
    · have hj' : j = a.calls - 1 := by
        have h1 : j + 1 < a.calls + 1 := hj
        omega
      rw [hj', ← hlast]
      exact hnone
  · show a.sleeps ++ [pollInterval] = List.replicate (a.calls + 1 - 1) pollInterval
    have hc : a.calls + 1 - 1 = (a.calls - 1) + 1 := by omega
    rw [hc, List.replicate_succ', hsleeps]

theorem retryLoop_spec (find : Nat → Server) :
    ∀ (n : Nat) (a : Acquisition), AcquireInv find a →
      AcquireInv find (retryLoop find n a) ∧
      (retryLoop find n a).calls ≤ a.calls + n ∧
      ((retryLoop find n a).server = none → (retryLoop find n a).calls = a.calls + n) := by
  intro n
  induction n with
  | zero =>
    intro a hinv
    exact ⟨hinv, le_refl _, fun _ => rfl⟩
  | succ n ih =>
    intro a hinv
    cases hs : a.server with
    | some s =>
      have hr : retryLoop find (n + 1) a = a := by
        simp [retryLoop, hs]
      rw [hr]
      refine ⟨hinv, Nat.le_add_right _ _, ?_⟩
      intro hnone
      rw [hs] at hnone
      exact absurd hnone (by simp)
    | none =>
      have hr : retryLoop find (n + 1) a =
          retryLoop find n
            { server := find a.calls, calls := a.calls + 1,
              sleeps := a.sleeps ++ [pollInterval] } := by
        simp [retryLoop, hs]
      rw [hr]
      obtain ⟨h1, h2, h3⟩ := ih _ (acquireInv_next find a hinv hs)
      refine ⟨h1, ?_, ?_⟩
      · have : a.calls + 1 + n = a.calls + (n + 1) := by omega
        rw [← this]
        exact h2
      · intro hnone
        have := h3 hnone
        simp only at this
        omega

theorem acquire_spec (timeout : Int) (find : Nat → Server) :
    AcquireInv find (acquire timeout find) ∧
    (acquire timeout find).calls ≤ 1 + (maxRetries timeout).toNat ∧
    ((acquire timeout find).server = none →
      (acquire timeout find).calls = 1 + (maxRetries timeout).toNat) :=
  retryLoop_spec find (maxRetries timeout).toNat _ (acquireInv_init find)

theorem wrapInt_of_fits (x : Int) (hlo : 0 ≤ x) (hhi : x < 2 ^ 63) : wrapInt x = x := by
  unfold wrapInt
  have h : (x + 2 ^ 63) % 2 ^ 64 = x + 2 ^ 63 := by
    apply Int.emod_eq_of_lt <;> omega
  rw [h]
  omega

theorem maxRetries_of_fits (timeout : Int) (hnonneg : 0 ≤ timeout)
    (hfit : timeout * 1000 < 2 ^ 63) : maxRetries timeout = 5 * timeout := by
  unfold maxRetries
  rw [wrapInt_of_fits (timeout * 1000) (by omega) hfit]
  rw [Int.tdiv_eq_ediv (by omega) (by decide)]
  omega

theorem acquire_calls_of_absent (timeout : Int) (find : Nat → Server)
    (habsent : ∀ k, find k = none) :
    (acquire timeout find).calls = 1 + (maxRetries timeout).toNat := by
  obtain ⟨⟨_, hlast, _, _⟩, _, hnone⟩ := acquire_spec timeout find
  exact hnone (by rw [hlast]; exact habsent _)

/-! ## Claims about the startup acquisition -/

/-- C3, against the claim as stated: with `timeout = 1` (maxWait = 1000 ms,
pollInterval = 200 ms) and a Locator that always returns absent, the
acquisition makes 6 Locator calls, which is neither the 5 calls of
`ceil (1000 / 200)` nor at most 5. -/
theorem acquire_calls_not_ceil :
    (acquire 1 neverFound).calls = 6 ∧ specAttempts (1 * 1000) pollInterval = 5 ∧
      ¬ ((acquire 1 neverFound).calls = specAttempts (1 * 1000) pollInterval) ∧
      ¬ ((acquire 1 neverFound).calls ≤ 5) := by
  have h : (acquire 1 neverFound).calls = 6 := by
    rw [acquire_calls_of_absent 1 neverFound (fun _ => rfl),
      maxRetries_of_fits 1 (by decide) (by decide)]
    rfl
  have hs : specAttempts (1 * 1000) pollInterval = 5 := by decide
  refine ⟨h, hs, ?_, ?_⟩
  · rw [h, hs]; decide
  · rw [h]; decide

/-- C3, amended: for every non-negative timeout whose product `timeout * 1000`
fits a Go `int`, if the Locator returns absent on every call, the startup
acquisition returns absent after exactly `1 + maxWait / pollInterval`
= `1 + 5 * timeout` Locator calls (the initial call and one per retry), which
is at least one call, and it sleeps 200 ms `5 * timeout` times. -/
theorem acquire_calls_never_found (timeout : Int) (find : Nat → Server)
    (hnonneg : 0 ≤ timeout) (hfit : timeout * 1000 < 2 ^ 63)
    (habsent : ∀ k, find k = none) :
    (acquire timeout find).server = none ∧
    (acquire timeout find).calls = 1 + (timeout * 1000 / 200).toNat ∧
    (acquire timeout find).calls = 1 + 5 * timeout.toNat ∧
    1 ≤ (acquire timeout find).calls ∧
    (acquire timeout find).sleeps = List.replicate (5 * timeout.toNat) pollInterval := by
  have hcalls := acquire_calls_of_absent timeout find habsent
  rw [maxRetries_of_fits timeout hnonneg hfit] at hcalls
  obtain ⟨⟨hpos, hlast, _, hsleeps⟩, _, _⟩ := acquire_spec timeout find
  have h5 : (5 * timeout).toNat = 5 * timeout.toNat := by omega
  have hq : (timeout * 1000 / 200).toNat = 5 * timeout.toNat := by omega
  refine ⟨by rw [hlast]; exact habsent _, by rw [hcalls, hq, h5], by rw [hcalls, h5], hpos, ?_⟩
  rw [hsleeps, hcalls, h5]
  congr 1
  omega

/-- C3, amended, at `timeout = 1` (maxWait = 1000 ms): six Locator calls and
five sleeps. -/
theorem acquire_calls_never_found_witness :
    (acquire 1 neverFound).server = none ∧
    (acquire 1 neverFound).calls = 1 + ((1 : Int) * 1000 / 200).toNat ∧
    (acquire 1 neverFound).calls = 1 + 5 * (1 : Int).toNat ∧
    1 ≤ (acquire 1 neverFound).calls ∧
    (acquire 1 neverFound).sleeps = List.replicate (5 * (1 : Int).toNat) pollInterval :=
  acquire_calls_never_found 1 neverFound (by decide) (by decide) (fun _ => rfl)

/-- C8: for every timeout and every sequence of Locator results, the startup
acquisition makes between one and `1 + maxRetries` Locator calls; it returns
the result of the last call it made; every call before the last returned
absent, so the result is the first non-absent one and no call follows it; it
sleeps once, each time for 200 ms, before each call but the first, that is
after each failed attempt that is followed by another attempt, and not after
the returned result; when it returns absent it has made all the calls it is
allowed to make and every one of them returned absent; and when call `k` is the
first allowed call with a non-absent result, it returns that result after
exactly `k + 1` calls and `k` sleeps. -/
theorem acquire_returns_first_found (timeout : Int) (find : Nat → Server) :
    1 ≤ (acquire timeout find).calls ∧
    (acquire timeout find).calls ≤ 1 + (maxRetries timeout).toNat ∧
    (acquire timeout find).server = find ((acquire timeout find).calls - 1) ∧
    (∀ j, j + 1 < (acquire timeout find).calls → find j = none) ∧
    (acquire timeout find).sleeps =
      List.replicate ((acquire timeout find).calls - 1) 200 ∧
    ((acquire timeout find).server = none →
      (acquire timeout find).calls = 1 + (maxRetries timeout).toNat ∧
      ∀ j, j < (acquire timeout find).calls → find j = none) ∧
    (∀ k, k ≤ (maxRetries timeout).toNat → find k ≠ none → (∀ j, j < k → find j = none) →
      (acquire timeout find).server = find k ∧ (acquire timeout find).calls = k + 1 ∧
      (acquire timeout find).sleeps = List.replicate k 200) := by
  obtain ⟨⟨hpos, hlast, hearlier, hsleeps0⟩, hle, hnone⟩ := acquire_spec timeout find
  have hsleeps : (acquire timeout find).sleeps =
      List.replicate ((acquire timeout find).calls - 1) 200 := hsleeps0
  refine ⟨hpos, hle, hlast, hearlier, hsleeps, ?_, ?_⟩
  · intro h
    refine ⟨hnone h, ?_⟩
    intro j hj
    rcases Nat.lt_or_ge (j + 1) (acquire timeout find).calls with hlt | hge
    · exact hearlier j hlt
    · have hj' : j = (acquire timeout find).calls - 1 := by omega
      rw [hj', ← hlast]
      exact h
  · intro k hk hfound hbefore
    have hcalls : (acquire timeout find).calls = k + 1 := by
      rcases Nat.lt_trichotomy ((acquire timeout find).calls - 1) k with hlt | heq | hgt
      · have habs : (acquire timeout find).server = none := by
          rw [hlast]
          exact hbefore _ hlt
        have := hnone habs
        omega
      · omega
      · exact absurd (hearlier k (by omega)) hfound
    have hk1 : (acquire timeout find).calls - 1 = k := by omega
    refine ⟨by rw [hlast, hk1], hcalls, by rw [hsleeps, hk1]⟩

/-- A run of the acquisition: found at the third call, after two sleeps. -/
theorem acquire_found_at_third_call :
    acquire 1 (findFrom [none, none, some ⟨7⟩, some ⟨8⟩]) = ⟨some ⟨7⟩, 3, [200, 200]⟩ := by
  decide

/-- With a timeout of zero the loop body never runs: one call, no sleep. -/
theorem acquire_timeout_zero :
    acquire 0 (findFrom [none, none, some ⟨7⟩, some ⟨8⟩]) = ⟨none, 1, []⟩ := by
  decide

/-- With a negative timeout `maxRetries` is negative and the loop body never
runs. -/
theorem acquire_timeout_negative :
    acquire (-3) (findFrom [none, none, some ⟨7⟩, some ⟨8⟩]) = ⟨none, 1, []⟩ := by
  decide

/-- A timeout whose product with 1000 does not fit a Go `int` wraps to a
negative `maxRetries`. -/
theorem maxRetries_wraps : maxRetries 9223372036854776 < 0 := by decide

/-! ## The `/health` handler: one call -/

theorem health_fast (st : Exporter) (env : HealthEnv) (hrec : needsRecovery st env = false) :
    health st env = { state := st, status := StatusOK, effects := [] } := by
  simp [health, hrec]

theorem health_not_found (st : Exporter) (env : HealthEnv)
    (hrec : needsRecovery st env = true)
    (hfound : env.found = none ∨ env.foundEnabled = false) :
    health st env =
      { state := st, status := StatusServiceUnavailable, effects := [.findInstance] } := by
  unfold health
  rw [if_pos hrec]
  cases hf : env.found with
  | none => rfl
  | some newServer =>
    rcases hfound with h | h
    · rw [hf] at h
      exact absurd h (by simp)
    · simp [h]

theorem health_recovered (st : Exporter) (env : HealthEnv) (newServer : Instance)
    (hrec : needsRecovery st env = true) (hfound : env.found = some newServer)
    (henabled : env.foundEnabled = true) :
    health st env =
      match env.err with
      | none =>
        { state := { server := some newServer, collector := some (NewCollector newServer),
                     registry := st.registry ++ [NewCollector newServer] },
          status := StatusOK,
          effects := [.findInstance, .logInfo "Recovered passenger instance in /health.",
            .newCollector newServer, .register (NewCollector newServer)] }
      | some (.alreadyRegistered existingCollector) =>
        { state := { server := some newServer, collector := some existingCollector,
                     registry := st.registry },
          status := StatusOK,
          effects := [.findInstance, .logInfo "Recovered passenger instance in /health.",
            .newCollector newServer, .register (NewCollector newServer)] }
      | some .other =>
        { state := { server := some newServer, collector := some (NewCollector newServer),
                     registry := st.registry },
          status := StatusOK,
          effects := [.findInstance, .logInfo "Recovered passenger instance in /health.",
            .newCollector newServer, .register (NewCollector newServer),
            .logError "Failed to register collector after recovery."] } := by
  unfold health
  rw [if_pos hrec]
  simp only [hfound, henabled]
  cases env.err with
  | none => rfl
  | some e =>
    cases e with
    | alreadyRegistered existingCollector => rfl
    | other => rfl

theorem needsRecovery_of (st : Exporter) (env : HealthEnv)
    (hheld : st.server = none ∨ env.heldEnabled = false) : needsRecovery st env = true := by
  unfold needsRecovery
  cases hs : st.server with
  | none => rfl
  | some s =>
    rcases hheld with h | h
    · rw [hs] at h
      exact absurd h (by simp)
    · simp [h]

/-! ## Claims about one `/health` call -/

/-- C5: when an instance is held and reports enabled, the handler answers 200
without calling the Locator, building a collector or calling the registry (it
makes no call at all), and the held instance, the held collector and the
registry contents are unchanged. -/
theorem health_fast_path (st : Exporter) (env : HealthEnv) (s : Instance)
    (hheld : st.server = some s) (henabled : env.heldEnabled = true) :
    (health st env).status = 200 ∧ (health st env).effects = [] ∧
    (health st env).state = st := by
  have hrec : needsRecovery st env = false := by
    simp [needsRecovery, hheld, henabled]
  rw [health_fast st env hrec]
  exact ⟨rfl, rfl, rfl⟩

/-- C5 at a concrete state: instance 0 is held with its registered collector
and reports enabled. -/
theorem health_fast_path_witness :
    (health ⟨some ⟨0⟩, some (NewCollector ⟨0⟩), [NewCollector ⟨0⟩]⟩
        ⟨true, some ⟨1⟩, true, none⟩).status = 200 ∧
    (health ⟨some ⟨0⟩, some (NewCollector ⟨0⟩), [NewCollector ⟨0⟩]⟩
        ⟨true, some ⟨1⟩, true, none⟩).effects = [] ∧
    (health ⟨some ⟨0⟩, some (NewCollector ⟨0⟩), [NewCollector ⟨0⟩]⟩
        ⟨true, some ⟨1⟩, true, none⟩).state =
      ⟨some ⟨0⟩, some (NewCollector ⟨0⟩), [NewCollector ⟨0⟩]⟩ :=
  health_fast_path ⟨some ⟨0⟩, some (NewCollector ⟨0⟩), [NewCollector ⟨0⟩]⟩
    ⟨true, some ⟨1⟩, true, none⟩ ⟨0⟩ rfl rfl

/-- C4: when the held instance is absent or not enabled and the Locator
returns absent, or an instance that reports not enabled, the handler answers
503, its only call is the one Locator call (no collector is built and the
registry is not called), and the held instance, the held collector and the
registry contents are exactly as before. -/
theorem health_rediscovery_failed (st : Exporter) (env : HealthEnv)
    (hheld : st.server = none ∨ env.heldEnabled = false)
    (hfound : env.found = none ∨ env.foundEnabled = false) :
    (health st env).status = 503 ∧ (health st env).effects = [Effect.findInstance] ∧
    (∀ c, Effect.register c ∉ (health st env).effects) ∧
    (health st env).state.server = st.server ∧
    (health st env).state.collector = st.collector ∧
    (health st env).state.registry = st.registry := by
  rw [health_not_found st env (needsRecovery_of st env hheld) hfound]
  refine ⟨rfl, rfl, ?_, rfl, rfl, rfl⟩
  intro c hc
  simp at hc

/-- C4 at a concrete state: instance 0 is held but reports not enabled, and
the Locator returns instance 1, which reports not enabled. -/
theorem health_rediscovery_failed_witness :
    ((some (⟨0⟩ : Instance) = none ∨ false = false) ∧
      (some (⟨1⟩ : Instance) = none ∨ false = false)) ∧
    (health ⟨some ⟨0⟩, some (NewCollector ⟨0⟩), [NewCollector ⟨0⟩]⟩
        ⟨false, some ⟨1⟩, false, none⟩).status = 503 ∧
    (health ⟨some ⟨0⟩, some (NewCollector ⟨0⟩), [NewCollector ⟨0⟩]⟩
        ⟨false, some ⟨1⟩, false, none⟩).effects = [Effect.findInstance] ∧
    (∀ c, Effect.register c ∉
      (health ⟨some ⟨0⟩, some (NewCollector ⟨0⟩), [NewCollector ⟨0⟩]⟩
        ⟨false, some ⟨1⟩, false, none⟩).effects) ∧
    (health ⟨some ⟨0⟩, some (NewCollector ⟨0⟩), [NewCollector ⟨0⟩]⟩
        ⟨false, some ⟨1⟩, false, none⟩).state.server = some ⟨0⟩ ∧
    (health ⟨some ⟨0⟩, some (NewCollector ⟨0⟩), [NewCollector ⟨0⟩]⟩
        ⟨false, some ⟨1⟩, false, none⟩).state.collector = some (NewCollector ⟨0⟩) ∧
    (health ⟨some ⟨0⟩, some (NewCollector ⟨0⟩), [NewCollector ⟨0⟩]⟩
        ⟨false, some ⟨1⟩, false, none⟩).state.registry = [NewCollector ⟨0⟩] :=
  ⟨⟨Or.inr rfl, Or.inr rfl⟩,
    health_rediscovery_failed ⟨some ⟨0⟩, some (NewCollector ⟨0⟩), [NewCollector ⟨0⟩]⟩
      ⟨false, some ⟨1⟩, false, none⟩ (Or.inr rfl) (Or.inr rfl)⟩

/-- C6: when the call enters recovery (held instance absent or not enabled),
the Locator returns an enabled instance, and the registration reports an
already-registered conflict carrying the existing collector `E`, the handler
answers 200, the held collector afterwards is exactly `E`, the held instance is
the newly found one, and the registry contents are unchanged. -/
theorem health_adopts_existing (st : Exporter) (env : HealthEnv) (newServer : Instance)
    (E : Collector)
    (hheld : st.server = none ∨ env.heldEnabled = false)
    (hfound : env.found = some newServer) (henabled : env.foundEnabled = true)
    (herr : env.err = some (RegisterError.alreadyRegistered E)) :
    (health st env).status = 200 ∧ (health st env).state.collector = some E ∧
    (health st env).state.server = some newServer ∧
    (health st env).state.registry = st.registry := by
  rw [health_recovered st env newServer (needsRecovery_of st env hheld) hfound henabled, herr]
  exact ⟨rfl, rfl, rfl, rfl⟩

/-- C6 at a concrete state: instance 0 is held with its registered collector
but reports not enabled; the Locator returns the enabled instance 1 and the
registry reports a conflict with the collector built from instance 0. -/
theorem health_adopts_existing_witness :
    (health ⟨some ⟨0⟩, some (NewCollector ⟨0⟩), [NewCollector ⟨0⟩]⟩
        ⟨false, some ⟨1⟩, true, some (.alreadyRegistered (NewCollector ⟨0⟩))⟩).status = 200 ∧
    (health ⟨some ⟨0⟩, some (NewCollector ⟨0⟩), [NewCollector ⟨0⟩]⟩
        ⟨false, some ⟨1⟩, true, some (.alreadyRegistered (NewCollector ⟨0⟩))⟩).state.collector
      = some (NewCollector ⟨0⟩) ∧
    (health ⟨some ⟨0⟩, some (NewCollector ⟨0⟩), [NewCollector ⟨0⟩]⟩
        ⟨false, some ⟨1⟩, true, some (.alreadyRegistered (NewCollector ⟨0⟩))⟩).state.server
      = some ⟨1⟩ ∧
    (health ⟨some ⟨0⟩, some (NewCollector ⟨0⟩), [NewCollector ⟨0⟩]⟩
        ⟨false, some ⟨1⟩, true, some (.alreadyRegistered (NewCollector ⟨0⟩))⟩).state.registry
      = [NewCollector ⟨0⟩] :=
  health_adopts_existing ⟨some ⟨0⟩, some (NewCollector ⟨0⟩), [NewCollector ⟨0⟩]⟩
    ⟨false, some ⟨1⟩, true, some (.alreadyRegistered (NewCollector ⟨0⟩))⟩ ⟨1⟩ (NewCollector ⟨0⟩)
    (Or.inr rfl) rfl rfl rfl

/-- C1, against the claim as stated: instance 0 is held with its registered
collector but reports not enabled, the Locator returns the enabled instance 1,
and registering the new collector fails with an error that is not a conflict.
The handler answers 200, not 503, and the held instance and the held collector
are replaced by instance 1 and the collector built from it. -/
theorem health_register_failure_not_503 :
    (health ⟨some ⟨0⟩, some (NewCollector ⟨0⟩), [NewCollector ⟨0⟩]⟩
        ⟨false, some ⟨1⟩, true, some .other⟩).status = 200 ∧
    (health ⟨some ⟨0⟩, some (NewCollector ⟨0⟩), [NewCollector ⟨0⟩]⟩
        ⟨false, some ⟨1⟩, true, some .other⟩).status ≠ 503 ∧
    (health ⟨some ⟨0⟩, some (NewCollector ⟨0⟩), [NewCollector ⟨0⟩]⟩
        ⟨false, some ⟨1⟩, true, some .other⟩).state.server ≠ some ⟨0⟩ ∧
    (health ⟨some ⟨0⟩, some (NewCollector ⟨0⟩), [NewCollector ⟨0⟩]⟩
        ⟨false, some ⟨1⟩, true, some .other⟩).state.collector ≠ some (NewCollector ⟨0⟩) := by
  decide

/-- C1, amended: when the held instance is absent or not enabled, the Locator
returns an enabled instance, and registering the newly built collector fails
with an error that is not an already-registered conflict, the handler logs the
failure and answers 200; the held instance becomes the newly found one, the
held collector becomes the collector built from it, and the registry contents
are unchanged. -/
theorem health_register_failure (st : Exporter) (env : HealthEnv) (newServer : Instance)
    (hheld : st.server = none ∨ env.heldEnabled = false)
    (hfound : env.found = some newServer) (henabled : env.foundEnabled = true)
    (herr : env.err = some RegisterError.other) :
    (health st env).status = 200 ∧
    (health st env).state.server = some newServer ∧
    (health st env).state.collector = some (NewCollector newServer) ∧
    (health st env).state.registry = st.registry ∧
    Effect.logError "Failed to register collector after recovery." ∈
      (health st env).effects := by
  rw [health_recovered st env newServer (needsRecovery_of st env hheld) hfound henabled, herr]
  refine ⟨rfl, rfl, rfl, rfl, ?_⟩
  simp

/-- C1, amended, at the state and answers of the counterexample. -/
theorem health_register_failure_witness :
    (health ⟨some ⟨0⟩, some (NewCollector ⟨0⟩), [NewCollector ⟨0⟩]⟩
        ⟨false, some ⟨1⟩, true, some .other⟩).status = 200 ∧
    (health ⟨some ⟨0⟩, some (NewCollector ⟨0⟩), [NewCollector ⟨0⟩]⟩
        ⟨false, some ⟨1⟩, true, some .other⟩).state.server = some ⟨1⟩ ∧
    (health ⟨some ⟨0⟩, some (NewCollector ⟨0⟩), [NewCollector ⟨0⟩]⟩
        ⟨false, some ⟨1⟩, true, some .other⟩).state.collector = some (NewCollector ⟨1⟩) ∧
    (health ⟨some ⟨0⟩, some (NewCollector ⟨0⟩), [NewCollector ⟨0⟩]⟩
        ⟨false, some ⟨1⟩, true, some .other⟩).state.registry = [NewCollector ⟨0⟩] ∧
    Effect.logError "Failed to register collector after recovery." ∈
      (health ⟨some ⟨0⟩, some (NewCollector ⟨0⟩), [NewCollector ⟨0⟩]⟩
        ⟨false, some ⟨1⟩, true, some .other⟩).effects :=
  health_register_failure ⟨some ⟨0⟩, some (NewCollector ⟨0⟩), [NewCollector ⟨0⟩]⟩
    ⟨false, some ⟨1⟩, true, some .other⟩ ⟨1⟩ (Or.inr rfl) rfl rfl rfl

/-! ## Sequences of `/health` calls -/

theorem health_state_cases (st : Exporter) (env : HealthEnv) :
    (health st env).state = st ∨
    ∃ newServer,
      ((health st env).state =
          { server := some newServer, collector := some (NewCollector newServer),
            registry := st.registry ++ [NewCollector newServer] } ∧ env.err = none) ∨
      ((health st env).state =
          { server := some newServer, collector := some (NewCollector newServer),
            registry := st.registry } ∧ env.err = some .other) ∨
      (∃ E, (health st env).state =
          { server := some newServer, collector := some E, registry := st.registry } ∧
        env.err = some (.alreadyRegistered E)) := by
  cases hrec : needsRecovery st env with
  | false =>
    left
    rw [health_fast st env hrec]
  | true =>
    cases hf : env.found with
    | none =>
      left
      rw [health_not_found st env hrec (Or.inl hf)]
    | some newServer =>
      cases he : env.foundEnabled with
      | false =>
        left
        rw [health_not_found st env hrec (Or.inr he)]
      | true =>
        right
        refine ⟨newServer, ?_⟩
        rw [health_recovered st env newServer hrec hf he]
        cases herr : env.err with
        | none => exact Or.inl ⟨rfl, rfl⟩
        | some e =>
          cases e with
          | alreadyRegistered E => exact Or.inr (Or.inr ⟨E, rfl, rfl⟩)
          | other => exact Or.inr (Or.inl ⟨rfl, rfl⟩)

theorem pairedOr_mono (P Q : Collector → Prop) (st : Exporter) (hPQ : ∀ c, P c → Q c)
    (h : PairedOr P st) : PairedOr Q st := by
  intro c hc
  obtain ⟨s, hs, hor⟩ := h c hc
  exact ⟨s, hs, hor.imp id (hPQ c)⟩

theorem health_pairedOr (P : Collector → Prop) (st : Exporter) (env : HealthEnv)
    (h : PairedOr P st) :
    PairedOr (fun c => P c ∨ env.err = some (.alreadyRegistered c)) (health st env).state := by
  rcases health_state_cases st env with hsame | ⟨newServer, hok | hother | ⟨E, hE, herr⟩⟩
  · rw [hsame]
    exact pairedOr_mono P _ st (fun c hc => Or.inl hc) h
  · rw [hok.1]
    intro c hc
    refine ⟨newServer, rfl, Or.inl ?_⟩
    simpa using hc.symm
  · rw [hother.1]
    intro c hc
    refine ⟨newServer, rfl, Or.inl ?_⟩
    simpa using hc.symm
  · rw [hE]
    intro c hc
    have hcE : E = c := by simpa using hc
    refine ⟨newServer, rfl, Or.inr (Or.inr ?_)⟩
    rw [← hcE]
    exact herr

theorem run_pairedOr (envs : List HealthEnv) :
    ∀ (P : Collector → Prop) (st : Exporter), PairedOr P st →
      PairedOr (fun c => P c ∨ ∃ env ∈ envs, env.err = some (.alreadyRegistered c))
        (run st envs) := by
  induction envs with
  | nil =>
    intro P st h
    exact pairedOr_mono P _ st (fun c hc => Or.inl hc) h
  | cons env envs ih =>
    intro P st h
    have hstep := ih _ _ (health_pairedOr P st env h)
    refine pairedOr_mono _ _ _ ?_ hstep
    intro c hc
    rcases hc with (hP | hnow) | ⟨e, he, herr⟩
    · exact Or.inl hP
    · exact Or.inr ⟨env, List.mem_cons_self _ _, hnow⟩
    · exact Or.inr ⟨e, List.mem_cons_of_mem _ he, herr⟩

theorem startup_cases (timeout : Int) (find : Nat → Server) (err : Option RegisterError)
    (st : Exporter) (hstart : startup timeout find err = some st) :
    st = { server := none, collector := none, registry := [] } ∨
    ∃ s, st = { server := some s, collector := some (NewCollector s),
                registry := [NewCollector s] } := by
  unfold startup at hstart
  cases hs : (acquire timeout find).server with
  | none =>
    rw [hs] at hstart
    left
    simpa using hstart.symm
  | some s =>
    rw [hs] at hstart
    cases err with
    | none =>
      right
      refine ⟨s, ?_⟩
      simpa [Register] using hstart.symm
    | some e => simp at hstart

theorem startup_pairedOr (timeout : Int) (find : Nat → Server) (err : Option RegisterError)
    (st : Exporter) (hstart : startup timeout find err = some st) :
    PairedOr (fun _ => False) st := by
  rcases startup_cases timeout find err st hstart with h | ⟨s, h⟩
  · rw [h]
    intro c hc
    simp at hc
  · rw [h]
    intro c hc
    refine ⟨s, rfl, Or.inl ?_⟩
    simpa using hc.symm

theorem run_append (st : Exporter) (envs more : List HealthEnv) :
    run st (envs ++ more) = run (run st envs) more := by
  induction envs generalizing st with
  | nil => rfl
  | cons env envs ih => exact ih (health st env).state

theorem health_registry_grows (st : Exporter) (env : HealthEnv) :
    st.registry <+: (health st env).state.registry := by
  rcases health_state_cases st env with hsame | ⟨newServer, hok | hother | ⟨E, hE, _⟩⟩
  · rw [hsame]
  · rw [hok.1]
    exact ⟨_, rfl⟩
  · rw [hother.1]
  · rw [hE]

theorem run_registry_grows (envs : List HealthEnv) :
    ∀ st : Exporter, st.registry <+: (run st envs).registry := by
  induction envs with
  | nil => intro st; exact ⟨[], List.append_nil _⟩
  | cons env envs ih =>
    intro st
    exact (health_registry_grows st env).trans (ih _)

theorem run_registry_length (envs : List HealthEnv) :
    ∀ st : Exporter, st.registry.length ≤ 1 → NoSecondRegistration st envs →
      (run st envs).registry.length ≤ 1 := by
  induction envs with
  | nil => intro st hlen _; exact hlen
  | cons env envs ih =>
    intro st hlen hdedup
    obtain ⟨hnow, hrest⟩ := hdedup
    refine ih _ ?_ hrest
    rcases health_state_cases st env with hsame | ⟨newServer, hok | hother | ⟨E, hE, _⟩⟩
    · rw [hsame]; exact hlen
    · rw [hok.1]
      have hempty : st.registry = [] := by
        by_contra hne
        exact hnow hne hok.2
      simp [hempty]
    · rw [hother.1]; exact hlen
    · rw [hE]; exact hlen

/-! ## Claims about reachable states -/

/-- C2, against the claim as stated: startup finds instance 0 and registers the
collector built from it; later instance 0 reports not enabled, the Locator
returns the enabled instance 1, and the registration of the new collector
reports a conflict with the registered collector. The state reached holds the
handle of instance 1 together with the collector built from instance 0. -/
theorem held_pair_mismatch_after_conflict :
    exporterRun 30 (findFrom [some ⟨0⟩]) none
        [⟨false, some ⟨1⟩, true, some (.alreadyRegistered (NewCollector ⟨0⟩))⟩] =
      some ⟨some ⟨1⟩, some (NewCollector ⟨0⟩), [NewCollector ⟨0⟩]⟩ ∧
    ¬ Paired ⟨some ⟨1⟩, some (NewCollector ⟨0⟩), [NewCollector ⟨0⟩]⟩ := by
  refine ⟨by decide, ?_⟩
  intro h
  obtain ⟨s, hs, hc⟩ := h (NewCollector ⟨0⟩) rfl
  have h1 : s = ⟨1⟩ := by simpa using hs.symm
  have h0 : s = ⟨0⟩ := by simpa [NewCollector] using hc.symm
  rw [h1] at h0
  exact absurd h0 (by decide)

/-- C2, amended: in every state reachable from startup through any sequence of
`/health` calls, with any Locator results and any registration outcomes,
whenever a collector is held an instance is held too, and the collector is the
one built from that instance unless it is the existing collector carried by an
already-registered conflict of the run, which the handler adopts whatever the
handle it was built from; in particular, in a run without conflict outcomes
the held collector is always the one built from the held instance. -/
theorem held_pair_provenance (timeout : Int) (find : Nat → Server)
    (err : Option RegisterError) (envs : List HealthEnv) (st : Exporter)
    (hrun : exporterRun timeout find err envs = some st) :
    (∀ c, st.collector = some c → ∃ s, st.server = some s ∧
      (c = NewCollector s ∨ ∃ env ∈ envs, env.err = some (.alreadyRegistered c))) ∧
    ((∀ env ∈ envs, ∀ E, env.err ≠ some (.alreadyRegistered E)) → Paired st) := by
  unfold exporterRun at hrun
  cases hstart : startup timeout find err with
  | none => rw [hstart] at hrun; simp at hrun
  | some st0 =>
    rw [hstart] at hrun
    have hst : run st0 envs = st := by simpa using hrun
    have hinv := run_pairedOr envs _ st0 (startup_pairedOr timeout find err st0 hstart)
    rw [hst] at hinv
    have hmain : ∀ c, st.collector = some c → ∃ s, st.server = some s ∧
        (c = NewCollector s ∨ ∃ env ∈ envs, env.err = some (.alreadyRegistered c)) := by
      intro c hc
      obtain ⟨s, hs, hor⟩ := hinv c hc
      refine ⟨s, hs, ?_⟩
      rcases hor with h | h | h
      · exact Or.inl h
      · exact absurd h id
      · exact Or.inr h
    refine ⟨hmain, ?_⟩
    intro hnoconflict c hc
    obtain ⟨s, hs, hor⟩ := hmain c hc
    refine ⟨s, hs, ?_⟩
    rcases hor with h | ⟨env, henv, herr⟩
    · exact h
    · exact absurd herr (hnoconflict env henv c)

/-- C2, amended, at a concrete run: nothing is found at startup, the first
`/health` call recovers instance 1 and registers its collector, the second one
takes the fast path. -/
theorem held_pair_provenance_witness :
    exporterRun 1 neverFound none [⟨false, some ⟨1⟩, true, none⟩, ⟨true, none, false, none⟩] =
      some ⟨some ⟨1⟩, some (NewCollector ⟨1⟩), [NewCollector ⟨1⟩]⟩ ∧
    (∀ c, (⟨some ⟨1⟩, some (NewCollector ⟨1⟩), [NewCollector ⟨1⟩]⟩ : Exporter).collector = some c →
      ∃ s, (⟨some ⟨1⟩, some (NewCollector ⟨1⟩), [NewCollector ⟨1⟩]⟩ : Exporter).server = some s ∧
        (c = NewCollector s ∨
          ∃ env ∈ [(⟨false, some ⟨1⟩, true, none⟩ : HealthEnv), ⟨true, none, false, none⟩],
            env.err = some (.alreadyRegistered c))) ∧
    ((∀ env ∈ [(⟨false, some ⟨1⟩, true, none⟩ : HealthEnv), ⟨true, none, false, none⟩],
        ∀ E, env.err ≠ some (.alreadyRegistered E)) →
      Paired ⟨some ⟨1⟩, some (NewCollector ⟨1⟩), [NewCollector ⟨1⟩]⟩) :=
  ⟨by decide,
    held_pair_provenance 1 neverFound none
      [⟨false, some ⟨1⟩, true, none⟩, ⟨true, none, false, none⟩]
      ⟨some ⟨1⟩, some (NewCollector ⟨1⟩), [NewCollector ⟨1⟩]⟩ (by decide)⟩

/-- C7, against the claim as stated: startup finds instance 0 and registers the
collector built from it; later instance 0 reports not enabled, the Locator
returns the enabled instance 1, and the registration of the new collector
succeeds cleanly. The handler unregisters nothing: the registry then holds two
collectors of this exporter. -/
theorem two_collectors_registered :
    exporterRun 30 (findFrom [some ⟨0⟩]) none [⟨false, some ⟨1⟩, true, none⟩] =
      some ⟨some ⟨1⟩, some (NewCollector ⟨1⟩), [NewCollector ⟨0⟩, NewCollector ⟨1⟩]⟩ ∧
    ¬ ((⟨some ⟨1⟩, some (NewCollector ⟨1⟩),
        [NewCollector ⟨0⟩, NewCollector ⟨1⟩]⟩ : Exporter).registry.length ≤ 1) := by
  refine ⟨by decide, by decide⟩

/-- C7, amended: the exporter never unregisters a collector. The collectors
registered in a state reached from startup stay registered, in place, through
any further sequence of `/health` calls; a registration that succeeds cleanly
adds the new collector alongside those already registered; and when no
registration of the run succeeds cleanly while a collector of this exporter is
already registered, the state reached has at most one collector of this
exporter registered. -/
theorem registry_at_most_one (timeout : Int) (find : Nat → Server)
    (err : Option RegisterError) (envs : List HealthEnv) (st0 : Exporter)
    (hstart : startup timeout find err = some st0) :
    (∀ more, (run st0 envs).registry <+: (run st0 (envs ++ more)).registry) ∧
    (∀ env newServer, ((run st0 envs).server = none ∨ env.heldEnabled = false) →
      env.found = some newServer → env.foundEnabled = true → env.err = none →
      (run st0 (envs ++ [env])).registry =
        (run st0 envs).registry ++ [NewCollector newServer]) ∧
    (NoSecondRegistration st0 envs → (run st0 envs).registry.length ≤ 1) := by
  refine ⟨?_, ?_, ?_⟩
  · intro more
    rw [run_append]
    exact run_registry_grows more _
  · intro env newServer hheld hfound henabled herr
    rw [run_append]
    show (health (run st0 envs) env).state.registry = _
    rw [health_recovered _ env newServer (needsRecovery_of _ env hheld) hfound henabled, herr]
  · intro hdedup
    refine run_registry_length envs st0 ?_ hdedup
    rcases startup_cases timeout find err st0 hstart with h | ⟨s, h⟩ <;> rw [h] <;> simp

/-- C7, amended, at a concrete run: startup finds instance 0 and registers its
collector; then instance 0 reports not enabled, instance 1 is found, and the
registry reports a conflict with the registered collector, which leaves one
collector registered; a further call that finds instance 2 and registers
cleanly leaves the collector of instance 0 registered and adds the collector
of instance 2 next to it. -/
theorem registry_at_most_one_witness :
    startup 30 (findFrom [some ⟨0⟩]) none =
      some ⟨some ⟨0⟩, some (NewCollector ⟨0⟩), [NewCollector ⟨0⟩]⟩ ∧
    (run ⟨some ⟨0⟩, some (NewCollector ⟨0⟩), [NewCollector ⟨0⟩]⟩
        [⟨false, some ⟨1⟩, true,
          some (.alreadyRegistered (NewCollector ⟨0⟩))⟩]).registry.length ≤ 1 ∧
    (run ⟨some ⟨0⟩, some (NewCollector ⟨0⟩), [NewCollector ⟨0⟩]⟩
        [⟨false, some ⟨1⟩, true,
          some (.alreadyRegistered (NewCollector ⟨0⟩))⟩]).registry <+:
      (run ⟨some ⟨0⟩, some (NewCollector ⟨0⟩), [NewCollector ⟨0⟩]⟩
        ([⟨false, some ⟨1⟩, true, some (.alreadyRegistered (NewCollector ⟨0⟩))⟩] ++
          [⟨false, some ⟨2⟩, true, none⟩])).registry ∧
    (run ⟨some ⟨0⟩, some (NewCollector ⟨0⟩), [NewCollector ⟨0⟩]⟩
        ([⟨false, some ⟨1⟩, true, some (.alreadyRegistered (NewCollector ⟨0⟩))⟩] ++
          [⟨false, some ⟨2⟩, true, none⟩])).registry =
      (run ⟨some ⟨0⟩, some (NewCollector ⟨0⟩), [NewCollector ⟨0⟩]⟩
        [⟨false, some ⟨1⟩, true,
          some (.alreadyRegistered (NewCollector ⟨0⟩))⟩]).registry ++ [NewCollector ⟨2⟩] ∧
    (run ⟨some ⟨0⟩, some (NewCollector ⟨0⟩), [NewCollector ⟨0⟩]⟩
        ([⟨false, some ⟨1⟩, true, some (.alreadyRegistered (NewCollector ⟨0⟩))⟩] ++
          [⟨false, some ⟨2⟩, true, none⟩])).registry = [NewCollector ⟨0⟩, NewCollector ⟨2⟩] :=
  ⟨by decide,
    (registry_at_most_one 30 (findFrom [some ⟨0⟩]) none
      [⟨false, some ⟨1⟩, true, some (.alreadyRegistered (NewCollector ⟨0⟩))⟩]
      ⟨some ⟨0⟩, some (NewCollector ⟨0⟩), [NewCollector ⟨0⟩]⟩ (by decide)).2.2
      ⟨fun _ h => by simp at h, trivial⟩,
    (registry_at_most_one 30 (findFrom [some ⟨0⟩]) none
      [⟨false, some ⟨1⟩, true, some (.alreadyRegistered (NewCollector ⟨0⟩))⟩]
      ⟨some ⟨0⟩, some (NewCollector ⟨0⟩), [NewCollector ⟨0⟩]⟩ (by decide)).1
      [⟨false, some ⟨2⟩, true, none⟩],
    (registry_at_most_one 30 (findFrom [some ⟨0⟩]) none
      [⟨false, some ⟨1⟩, true, some (.alreadyRegistered (NewCollector ⟨0⟩))⟩]
      ⟨some ⟨0⟩, some (NewCollector ⟨0⟩), [NewCollector ⟨0⟩]⟩ (by decide)).2.1
      ⟨false, some ⟨2⟩, true, none⟩ ⟨2⟩ (Or.inr rfl) rfl rfl rfl,
    by decide⟩

/-- C9: when the Locator returns absent on every call of the startup
acquisition, startup ends with no instance held and nothing registered. From
there a `/health` call while the Locator returns absent answers 503; a next
call, while the Locator returns an enabled instance and the registration
succeeds, answers 200 and leaves the new collector registered and held; a next
call, after that instance reports not enabled and while the Locator returns
absent, answers 503, and the collector of the earlier recovery is still
registered and still held. -/
theorem health_before_and_after_recovery (timeout : Int) (find : Nat → Server)
    (err : Option RegisterError) (s : Instance) (e1 e2 e3 : HealthEnv)
    (habsent : ∀ k, find k = none)
    (h1 : e1.found = none)
    (h2 : e2.found = some s) (h2e : e2.foundEnabled = true) (h2r : e2.err = none)
    (h3 : e3.heldEnabled = false) (h3f : e3.found = none) :
    startup timeout find err = some ⟨none, none, []⟩ ∧
    (health ⟨none, none, []⟩ e1).status = 503 ∧
    (health (health ⟨none, none, []⟩ e1).state e2).status = 200 ∧
    (health (health ⟨none, none, []⟩ e1).state e2).state =
      ⟨some s, some (NewCollector s), [NewCollector s]⟩ ∧
    (health (health (health ⟨none, none, []⟩ e1).state e2).state e3).status = 503 ∧
    (health (health (health ⟨none, none, []⟩ e1).state e2).state e3).state.registry =
      [NewCollector s] ∧
    (health (health (health ⟨none, none, []⟩ e1).state e2).state e3).state.collector =
      some (NewCollector s) := by
  have hstart : startup timeout find err = some ⟨none, none, []⟩ := by
    obtain ⟨⟨_, hlast, _, _⟩, _, _⟩ := acquire_spec timeout find
    have hnone : (acquire timeout find).server = none := by rw [hlast]; exact habsent _
    simp [startup, hnone]
  have hr1 : health ⟨none, none, []⟩ e1 =
      { state := ⟨none, none, []⟩, status := StatusServiceUnavailable,
        effects := [.findInstance] } :=
    health_not_found ⟨none, none, []⟩ e1 rfl (Or.inl h1)
  have hr2 : health ⟨none, none, []⟩ e2 =
      { state := ⟨some s, some (NewCollector s), [NewCollector s]⟩, status := StatusOK,
        effects := [.findInstance, .logInfo "Recovered passenger instance in /health.",
          .newCollector s, .register (NewCollector s)] } := by
    rw [health_recovered ⟨none, none, []⟩ e2 s rfl h2 h2e, h2r]
    rfl
  have hr3 : health ⟨some s, some (NewCollector s), [NewCollector s]⟩ e3 =
      { state := ⟨some s, some (NewCollector s), [NewCollector s]⟩,
        status := StatusServiceUnavailable, effects := [.findInstance] } :=
    health_not_found _ e3 (needsRecovery_of _ e3 (Or.inr h3)) (Or.inl h3f)
  rw [hr1, hr2, hr3]
  exact ⟨hstart, rfl, rfl, rfl, rfl, rfl, rfl⟩

/-- C9 at a concrete run: a timeout of one second, a Locator that finds nothing
at startup, and instance 1 as the instance recovered later. -/
theorem health_before_and_after_recovery_witness :
    startup 1 neverFound none = some ⟨none, none, []⟩ ∧
    (health ⟨none, none, []⟩ ⟨false, none, false, none⟩).status = 503 ∧
    (health (health ⟨none, none, []⟩ ⟨false, none, false, none⟩).state
      ⟨false, some ⟨1⟩, true, none⟩).status = 200 ∧
    (health (health ⟨none, none, []⟩ ⟨false, none, false, none⟩).state
      ⟨false, some ⟨1⟩, true, none⟩).state =
      ⟨some ⟨1⟩, some (NewCollector ⟨1⟩), [NewCollector ⟨1⟩]⟩ ∧
    (health (health (health ⟨none, none, []⟩ ⟨false, none, false, none⟩).state
      ⟨false, some ⟨1⟩, true, none⟩).state ⟨false, none, false, none⟩).status = 503 ∧
    (health (health (health ⟨none, none, []⟩ ⟨false, none, false, none⟩).state
      ⟨false, some ⟨1⟩, true, none⟩).state ⟨false, none, false, none⟩).state.registry =
      [NewCollector ⟨1⟩] ∧
    (health (health (health ⟨none, none, []⟩ ⟨false, none, false, none⟩).state
      ⟨false, some ⟨1⟩, true, none⟩).state ⟨false, none, false, none⟩).state.collector =
      some (NewCollector ⟨1⟩) :=
  health_before_and_after_recovery 1 neverFound none ⟨1⟩ ⟨false, none, false, none⟩
    ⟨false, some ⟨1⟩, true, none⟩ ⟨false, none, false, none⟩ (fun _ => rfl) rfl rfl rfl rfl
    rfl rfl

/-! ## Concurrent requests: lemmas -/

theorem stepRequest_sound (env : HealthEnv) (st : Exporter) (pc : Pc)
    (hns : pc ≠ .stuck) (hb : pc = .build → st.server ≠ none)
    (hr : pc = .register → st.collector ≠ none) :
    (stepRequest env st pc).2 ≠ .stuck ∧
    (st.server ≠ none → (stepRequest env st pc).1.server ≠ none) ∧
    ((stepRequest env st pc).2 = .build → (stepRequest env st pc).1.server ≠ none) ∧
    (st.collector ≠ none → (stepRequest env st pc).1.collector ≠ none) ∧
    ((stepRequest env st pc).2 = .register → (stepRequest env st pc).1.collector ≠ none) ∧
    ((∃ s, env.found = some s ∧ env.foundEnabled = true) →
      (∀ status, pc = .done status → status = 200) →
      ∀ status, (stepRequest env st pc).2 = .done status → status = 200) ∧
    ((stepRequest env st pc).2).rank ≤ pc.rank - 1 := by
  cases pc with
  | check =>
    cases h : needsRecovery st env <;> simp [stepRequest, h, Pc.rank, StatusOK]
  | locate =>
    cases hf : env.found with
    | none => simp [stepRequest, hf, Pc.rank]
    | some s =>
      cases he : env.foundEnabled <;> simp [stepRequest, hf, he, Pc.rank]
  | setServer newServer => simp [stepRequest, Pc.rank]
  | build =>
    cases hs : st.server with
    | none => exact absurd hs (hb rfl)
    | some s => simp [stepRequest, hs, Pc.rank]
  | register =>
    cases hc : st.collector with
    | none => exact absurd hc (hr rfl)
    | some c =>
      cases herr : env.err with
      | none => simp [stepRequest, hc, herr, Pc.rank, StatusOK]
      | some e =>
        cases e with
        | alreadyRegistered E => simp [stepRequest, hc, herr, Pc.rank]
        | other => simp [stepRequest, hc, herr, Pc.rank, StatusOK]
  | adopt E => simp [stepRequest, Pc.rank, StatusOK]
  | done status =>
    simp only [stepRequest]
    refine ⟨by simp, id, by simp, id, by simp, ?_, by simp [Pc.rank]⟩
    intro _ h status' hs
    exact h status' hs
  | stuck => exact absurd rfl hns

theorem sound_start (n : Nat) (st : Exporter) : Sound n (Config.start st) := by
  refine ⟨?_, ?_, ?_, ?_⟩
  · intro i h
    simp [Config.start] at h
  · rintro ⟨i, h⟩
    simp [Config.start] at h
  · rintro ⟨i, h⟩
    simp [Config.start] at h
  · intro i _ status h
    simp [Config.start] at h

theorem sound_step (n : Nat) (envs : Nat → HealthEnv)
    (hfound : ∀ i, i < n → ∃ s, (envs i).found = some s ∧ (envs i).foundEnabled = true)
    (cfg : Config) (i : Nat) (h : Sound n cfg) :
    Sound n (stepConfig envs cfg i) ∧
    (∀ j, ((stepConfig envs cfg i).pc j).rank ≤ (cfg.pc j).rank - (if i = j then 1 else 0)) := by
  obtain ⟨hns, hserver, hcollector, hdone⟩ := h
  obtain ⟨s1, s2, s3, s4, s5, s6, s7⟩ :=
    stepRequest_sound (envs i) cfg.shared (cfg.pc i) (hns i)
      (fun hb => hserver ⟨i, hb⟩) (fun hr => hcollector ⟨i, hr⟩)
  refine ⟨⟨?_, ?_, ?_, ?_⟩, ?_⟩
  · intro j
    by_cases hj : j = i
    · simpa [stepConfig, hj] using s1
    · simpa [stepConfig, hj] using hns j
  · rintro ⟨j, hj⟩
    by_cases hji : j = i
    · simp only [stepConfig, hji, if_true] at hj
      exact s3 hj
    · simp only [stepConfig, hji, if_false] at hj
      exact s2 (hserver ⟨j, hj⟩)
  · rintro ⟨j, hj⟩
    by_cases hji : j = i
    · simp only [stepConfig, hji, if_true] at hj
      exact s5 hj
    · simp only [stepConfig, hji, if_false] at hj
      exact s4 (hcollector ⟨j, hj⟩)
  · intro j hjn status hj
    by_cases hji : j = i
    · simp only [stepConfig, hji, if_true] at hj
      exact s6 (hfound i (hji ▸ hjn)) (hdone i (hji ▸ hjn)) status hj
    · simp only [stepConfig, hji, if_false] at hj
      exact hdone j hjn status hj
  · intro j
    by_cases hji : j = i
    · subst hji
      simpa [stepConfig] using s7
    · have hij : ¬ i = j := fun h => hji h.symm
      simp [stepConfig, hji, hij]

theorem exec_sound (n : Nat) (envs : Nat → HealthEnv)
    (hfound : ∀ i, i < n → ∃ s, (envs i).found = some s ∧ (envs i).foundEnabled = true) :
    ∀ (schedule : List Nat) (cfg : Config), Sound n cfg →
      Sound n (exec envs cfg schedule) ∧
      ∀ j, ((exec envs cfg schedule).pc j).rank ≤ (cfg.pc j).rank - schedule.count j := by
  intro schedule
  induction schedule with
  | nil =>
    intro cfg h
    exact ⟨h, fun j => by simp [exec]⟩
  | cons i schedule ih =>
    intro cfg h
    obtain ⟨hstep, hrank⟩ := sound_step n envs hfound cfg i h
    obtain ⟨hsound, hrest⟩ := ih (stepConfig envs cfg i) hstep
    refine ⟨hsound, ?_⟩
    intro j
    have h1 := hrest j
    have h2 := hrank j
    have hcount : (i :: schedule).count j = schedule.count j + (if i = j then 1 else 0) := by
      rw [List.count_cons]
      by_cases hij : i = j <;> simp [hij]
    show ((exec envs (stepConfig envs cfg i) schedule).pc j).rank ≤ _
    rw [hcount]
    omega

theorem rank_zero (pc : Pc) (hrank : pc.rank = 0) (hns : pc ≠ .stuck) :
    ∃ status, pc = .done status := by
  cases pc with
  | done status => exact ⟨status, rfl⟩
  | stuck => exact absurd rfl hns
  | check => simp [Pc.rank] at hrank
  | locate => simp [Pc.rank] at hrank
  | setServer s => simp [Pc.rank] at hrank
  | build => simp [Pc.rank] at hrank
  | register => simp [Pc.rank] at hrank
  | adopt E => simp [Pc.rank] at hrank

theorem exec_all_healthy (n : Nat) (envs : Nat → HealthEnv) (st : Exporter)
    (schedule : List Nat)
    (hfound : ∀ i, i < n → ∃ s, (envs i).found = some s ∧ (envs i).foundEnabled = true)
    (hfair : ∀ i, i < n → 6 ≤ schedule.count i) :
    ∀ i, i < n → (exec envs (Config.start st) schedule).pc i = .done 200 := by
  intro i hi
  obtain ⟨⟨hns, _, _, hdone⟩, hrank⟩ :=
    exec_sound n envs hfound schedule (Config.start st) (sound_start n st)
  have h6 : ((Config.start st).pc i).rank = 6 := rfl
  have hr := hrank i
  have hf := hfair i hi
  have h0 : ((exec envs (Config.start st) schedule).pc i).rank = 0 := by omega
  obtain ⟨status, hstatus⟩ := rank_zero _ h0 (hns i)
  rw [hstatus, hdone i hi status hstatus]

theorem stepsRequest_done (env : HealthEnv) (st : Exporter) (status : Nat) :
    ∀ k, stepsRequest env k st (.done status) = (st, .done status) := by
  intro k
  induction k with
  | zero => rfl
  | succ k ih => simpa [stepsRequest, stepRequest] using ih

theorem stepsRequest_health (env : HealthEnv) (st : Exporter) :
    stepsRequest env 6 st .check = ((health st env).state, .done (health st env).status) := by
  cases hrec : needsRecovery st env with
  | false =>
    rw [health_fast st env hrec]
    simp [stepsRequest, stepRequest, hrec]
  | true =>
    cases hf : env.found with
    | none =>
      rw [health_not_found st env hrec (Or.inl hf)]
      simp [stepsRequest, stepRequest, hrec, hf]
    | some newServer =>
      cases he : env.foundEnabled with
      | false =>
        rw [health_not_found st env hrec (Or.inr he)]
        simp [stepsRequest, stepRequest, hrec, hf, he]
      | true =>
        rw [health_recovered st env newServer hrec hf he]
        cases herr : env.err with
        | none => simp [stepsRequest, stepRequest, hrec, hf, he, herr, Register]
        | some e =>
          cases e with
          | alreadyRegistered E =>
            simp [stepsRequest, stepRequest, hrec, hf, he, herr, Register]
          | other => simp [stepsRequest, stepRequest, hrec, hf, he, herr, Register]

theorem exec_replicate (envs : Nat → HealthEnv) (i : Nat) :
    ∀ (k : Nat) (cfg : Config),
      (exec envs cfg (List.replicate k i)).shared =
        (stepsRequest (envs i) k cfg.shared (cfg.pc i)).1 ∧
      (exec envs cfg (List.replicate k i)).pc i =
        (stepsRequest (envs i) k cfg.shared (cfg.pc i)).2 ∧
      ∀ j, j ≠ i → (exec envs cfg (List.replicate k i)).pc j = cfg.pc j := by
  intro k
  induction k with
  | zero =>
    intro cfg
    exact ⟨rfl, rfl, fun _ _ => rfl⟩
  | succ k ih =>
    intro cfg
    obtain ⟨h1, h2, h3⟩ := ih (stepConfig envs cfg i)
    have hpc : (stepConfig envs cfg i).pc i = (stepRequest (envs i) cfg.shared (cfg.pc i)).2 := by
      simp [stepConfig]
    refine ⟨?_, ?_, ?_⟩
    · show (exec envs (stepConfig envs cfg i) (List.replicate k i)).shared = _
      rw [h1, hpc]
      rfl
    · show (exec envs (stepConfig envs cfg i) (List.replicate k i)).pc i = _
      rw [h2, hpc]
      rfl
    · intro j hj
      show (exec envs (stepConfig envs cfg i) (List.replicate k i)).pc j = _
      rw [h3 j hj]
      simp [stepConfig, hj]

theorem exec_append (envs : Nat → HealthEnv) (s1 s2 : List Nat) :
    ∀ cfg : Config, exec envs cfg (s1 ++ s2) = exec envs (exec envs cfg s1) s2 := by
  induction s1 with
  | nil => intro cfg; rfl
  | cons i s1 ih => intro cfg; exact ih (stepConfig envs cfg i)

theorem exec_serial (envs : Nat → HealthEnv) (st : Exporter) :
    ∀ n : Nat,
      (exec envs (Config.start st) (serialSchedule n)).shared = run st (firstEnvs envs n) ∧
      ∀ j, n ≤ j → (exec envs (Config.start st) (serialSchedule n)).pc j = .check := by
  intro n
  induction n with
  | zero => exact ⟨rfl, fun _ _ => rfl⟩
  | succ n ih =>
    obtain ⟨hshared, hpc⟩ := ih
    obtain ⟨h1, _, h3⟩ :=
      exec_replicate envs n requestSteps (exec envs (Config.start st) (serialSchedule n))
    refine ⟨?_, ?_⟩
    · show (exec envs (Config.start st)
        (serialSchedule n ++ List.replicate requestSteps n)).shared = _
      rw [exec_append, h1, hpc n (le_refl n), hshared]
      show (stepsRequest (envs n) 6 _ .check).1 = run st (firstEnvs envs n ++ [envs n])
      rw [stepsRequest_health, run_append]
      rfl
    · intro j hj
      show (exec envs (Config.start st)
        (serialSchedule n ++ List.replicate requestSteps n)).pc j = _
      rw [exec_append, h3 j (by omega)]
      exact hpc j (by omega)

theorem health_fast_of_held (st : Exporter) (env : HealthEnv) (s : Instance)
    (hheld : st.server = some s) (henabled : env.heldEnabled = true) :
    health st env = { state := st, status := StatusOK, effects := [] } :=
  health_fast st env (by simp [needsRecovery, hheld, henabled])

theorem run_serial_first (envs : Nat → HealthEnv) (st : Exporter) (s : Instance) (n : Nat)
    (hheld : ∀ i, 0 < i → i < n → (envs i).heldEnabled = true)
    (hserver : (health st (envs 0)).state.server = some s) :
    ∀ k, k < n → run st (firstEnvs envs (k + 1)) = (health st (envs 0)).state := by
  intro k
  induction k with
  | zero => intro _; rfl
  | succ k ih =>
    intro hk
    show run st (firstEnvs envs (k + 1) ++ [envs (k + 1)]) = _
    rw [run_append, ih (by omega)]
    show (health (health st (envs 0)).state (envs (k + 1))).state = _
    rw [health_fast_of_held _ _ s hserver (hheld (k + 1) (by omega) hk)]

theorem count_serialSchedule (n i : Nat) (hi : i < n) : 6 ≤ (serialSchedule n).count i := by
  induction n with
  | zero => omega
  | succ n ih =>
    show 6 ≤ (serialSchedule n ++ List.replicate requestSteps n).count i
    rw [List.count_append]
    by_cases hin : i = n
    · subst hin
      have : (List.replicate requestSteps i).count i = 6 := by
        simp [requestSteps]
      omega
    · have := ih (by omega)
      omega

/-- Line 76 builds the collector from the shared `server`, not from the
request's own `newServer`: when request 1 stores instance 1 between lines 72
and 76 of request 0, request 0 builds its collector from instance 1. -/
theorem build_reads_shared_server :
    (exec raceEnvs (Config.start ⟨none, none, []⟩) [0, 1, 0, 1, 0, 1, 0]).shared =
      ⟨some ⟨1⟩, some (NewCollector ⟨1⟩), []⟩ := by
  decide

/-! ## Claims about concurrent requests -/

/-- C10, against the claim as stated: two requests arrive while no instance is
held, and the Locator gives instance 0 to request 0 and instance 1 to request 1,
both enabled. Nothing serializes them: after the first four steps of the
schedule both are inside recovery at once. Request 0 then stores instance 0,
builds its collector and registers it; request 1 stores instance 1, builds its
collector, meets the conflict and adopts the registered collector. Both answer
200, and the state reached holds the handle of instance 1 together with the
collector that request 0 built from instance 0. With the same answers, the
schedule that runs request 0 to completion before request 1 ends with instance
0 and its own collector. -/
theorem health_requests_race :
    ((exec raceEnvs (Config.start ⟨none, none, []⟩) (raceSchedule.take 4)).pc 0).inRecovery
      = true ∧
    ((exec raceEnvs (Config.start ⟨none, none, []⟩) (raceSchedule.take 4)).pc 1).inRecovery
      = true ∧
    (exec raceEnvs (Config.start ⟨none, none, []⟩) raceSchedule).pc 0 = .done 200 ∧
    (exec raceEnvs (Config.start ⟨none, none, []⟩) raceSchedule).pc 1 = .done 200 ∧
    (exec raceEnvs (Config.start ⟨none, none, []⟩) raceSchedule).shared =
      ⟨some ⟨1⟩, some (NewCollector ⟨0⟩), [NewCollector ⟨0⟩]⟩ ∧
    ¬ Paired (exec raceEnvs (Config.start ⟨none, none, []⟩) raceSchedule).shared ∧
    (exec raceEnvs (Config.start ⟨none, none, []⟩) (serialSchedule 2)).shared =
      ⟨some ⟨0⟩, some (NewCollector ⟨0⟩), [NewCollector ⟨0⟩]⟩ := by
  have hshared : (exec raceEnvs (Config.start ⟨none, none, []⟩) raceSchedule).shared =
      ⟨some ⟨1⟩, some (NewCollector ⟨0⟩), [NewCollector ⟨0⟩]⟩ := by decide
  refine ⟨by decide, by decide, by decide, by decide, hshared, ?_, by decide⟩
  rw [hshared]
  intro h
  obtain ⟨s, hs, hc⟩ := h (NewCollector ⟨0⟩) rfl
  have h1 : s = ⟨1⟩ := by simpa using hs.symm
  have h0 : s = ⟨0⟩ := by simpa [NewCollector] using hc.symm
  rw [h1] at h0
  exact absurd h0 (by decide)

/-- C10, amended: for every N and every interleaving of the steps of N
concurrent `/health` requests, each of which gets an enabled instance from the
Locator when it calls it, every request that is given six steps has run to
completion and reports healthy (status 200). The handler takes no lock: the
requests are serialized only by a schedule that runs them one after another,
and then the shared state is the one the sequential handler produces for the
requests in order and all N report healthy; in that sequential run, if no
instance is held at the start and the held instance reports enabled to every
later request, the first call makes the registration attempt, every later call
takes the fast path (no Locator call, no collector built, no registry call,
state unchanged), and the instance held at the end is the one the first call
found. Under other schedules two requests can be inside recovery at once and
leave, both answering 200, the held instance paired with a collector that was
not built from it. -/
theorem concurrent_health (n : Nat) (envs : Nat → HealthEnv) (st : Exporter)
    (schedule : List Nat)
    (hfound : ∀ i, i < n → ∃ s, (envs i).found = some s ∧ (envs i).foundEnabled = true)
    (hfair : ∀ i, i < n → 6 ≤ schedule.count i) :
    (∀ i, i < n → (exec envs (Config.start st) schedule).pc i = .done 200) ∧
    (exec envs (Config.start st) (serialSchedule n)).shared = run st (firstEnvs envs n) ∧
    (∀ i, i < n → (exec envs (Config.start st) (serialSchedule n)).pc i = .done 200) ∧
    (st.server = none → (∀ i, 0 < i → i < n → (envs i).heldEnabled = true) → 0 < n →
      ∃ s, (envs 0).found = some s ∧
        Effect.register (NewCollector s) ∈ (health st (envs 0)).effects ∧
        (∀ k, 0 < k → k < n →
          health (run st (firstEnvs envs k)) (envs k) =
            { state := run st (firstEnvs envs k), status := 200, effects := [] }) ∧
        (run st (firstEnvs envs n)).server = some s) ∧
    (∃ (envs2 : Nat → HealthEnv) (schedule2 : List Nat) (k : Nat),
      (∀ i, i < 2 → ∃ s, (envs2 i).found = some s ∧ (envs2 i).foundEnabled = true) ∧
      ((exec envs2 (Config.start ⟨none, none, []⟩) (schedule2.take k)).pc 0).inRecovery = true ∧
      ((exec envs2 (Config.start ⟨none, none, []⟩) (schedule2.take k)).pc 1).inRecovery = true ∧
      (exec envs2 (Config.start ⟨none, none, []⟩) schedule2).pc 0 = .done 200 ∧
      (exec envs2 (Config.start ⟨none, none, []⟩) schedule2).pc 1 = .done 200 ∧
      ¬ Paired (exec envs2 (Config.start ⟨none, none, []⟩) schedule2).shared) := by
  refine ⟨exec_all_healthy n envs st schedule hfound hfair, (exec_serial envs st n).1,
    exec_all_healthy n envs st (serialSchedule n) hfound (count_serialSchedule n), ?_, ?_⟩
  · intro hnone hheld hn
    obtain ⟨s, hs, he⟩ := hfound 0 hn
    have hrec : needsRecovery st (envs 0) = true := needsRecovery_of st (envs 0) (Or.inl hnone)
    have hserver : (health st (envs 0)).state.server = some s := by
      rw [health_recovered st (envs 0) s hrec hs he]
      cases (envs 0).err with
      | none => rfl
      | some e => cases e <;> rfl
    have hrun := run_serial_first envs st s n hheld hserver
    refine ⟨s, hs, ?_, ?_, ?_⟩
    · rw [health_recovered st (envs 0) s hrec hs he]
      cases (envs 0).err with
      | none => simp
      | some e => cases e <;> simp
    · intro k hk0 hkn
      obtain ⟨k', rfl⟩ : ∃ k', k = k' + 1 := ⟨k - 1, by omega⟩
      rw [hrun k' (by omega)]
      exact health_fast_of_held _ _ s hserver (hheld (k' + 1) hk0 hkn)
    · obtain ⟨n', rfl⟩ : ∃ n', n = n' + 1 := ⟨n - 1, by omega⟩
      rw [hrun n' (by omega)]
      exact hserver
  · refine ⟨raceEnvs, raceSchedule, 4, ?_, by decide, by decide, by decide, by decide, ?_⟩
    · intro i hi
      interval_cases i
      · exact ⟨⟨0⟩, rfl, rfl⟩
      · exact ⟨⟨1⟩, rfl, rfl⟩
    · have hshared : (exec raceEnvs (Config.start ⟨none, none, []⟩) raceSchedule).shared =
          ⟨some ⟨1⟩, some (NewCollector ⟨0⟩), [NewCollector ⟨0⟩]⟩ := by decide
      rw [hshared]
      intro h
      obtain ⟨s, hs, hc⟩ := h (NewCollector ⟨0⟩) rfl
      have h1 : s = ⟨1⟩ := by simpa using hs.symm
      have h0 : s = ⟨0⟩ := by simpa [NewCollector] using hc.symm
      rw [h1] at h0
      exact absurd h0 (by decide)

/-- C10, amended, for the two requests of the race under a schedule that gives
each of them six steps: both report healthy; run one after another they leave
the state of the sequential handler, instance 0 with its own collector, and
request 1 takes the fast path. -/
theorem concurrent_health_witness :
    (∀ i, i < 2 → (exec raceEnvs (Config.start ⟨none, none, []⟩)
      (raceSchedule ++ [0])).pc i = .done 200) ∧
    (exec raceEnvs (Config.start ⟨none, none, []⟩) (serialSchedule 2)).shared =
      run ⟨none, none, []⟩ (firstEnvs raceEnvs 2) ∧
    run ⟨none, none, []⟩ (firstEnvs raceEnvs 2) =
      ⟨some ⟨0⟩, some (NewCollector ⟨0⟩), [NewCollector ⟨0⟩]⟩ ∧
    (∀ i, i < 2 → (exec raceEnvs (Config.start ⟨none, none, []⟩)
      (serialSchedule 2)).pc i = .done 200) ∧
    (∃ s, (raceEnvs 0).found = some s ∧
      Effect.register (NewCollector s) ∈
        (health ⟨none, none, []⟩ (raceEnvs 0)).effects ∧
      (∀ k, 0 < k → k < 2 →
        health (run ⟨none, none, []⟩ (firstEnvs raceEnvs k)) (raceEnvs k) =
          { state := run ⟨none, none, []⟩ (firstEnvs raceEnvs k), status := 200,
            effects := [] }) ∧
      (run ⟨none, none, []⟩ (firstEnvs raceEnvs 2)).server = some s) :=
  have h := concurrent_health 2 raceEnvs ⟨none, none, []⟩ (raceSchedule ++ [0])
    (fun i hi => by
      interval_cases i
      · exact ⟨⟨0⟩, rfl, rfl⟩
      · exact ⟨⟨1⟩, rfl, rfl⟩)
    (fun i hi => by interval_cases i <;> decide)
  ⟨h.1, h.2.1, by decide, h.2.2.1,
    h.2.2.2.1 rfl (fun i _ hi => by interval_cases i; rfl) (by decide)⟩

end PassengerExporter
